import Mathlib

/-!
Verification development for the mcompass firmware
(src/Firmware/src/impl/gps_impl.cpp and src/Firmware/src/impl/bluetooth_impl.cpp).

Numeric modelling: C `float`/`double` values are embedded as exact rationals,
with the IEEE NaN case represented explicitly by `Option ℚ` where it can arise
(`fmod` with a zero modulus).  IEEE `fmod` itself is exact, so `fmodQ` below
introduces no idealization; the narrowing `double → float` rounding of
`modDistance` in the C code is not modelled (none of the proved statements
depends on it, since every comparison against a threshold uses `<=` and the
thresholds are exactly representable).  Machine-integer wraparound is modelled
explicitly where it matters (`sub32` for `uint32_t` subtraction of millisecond
timestamps).
-/

namespace MCompass

/-- The quotient `x / y` truncated toward zero, as C division/`fmod` use it:
`x / y = (x.num * y.den) / (y.num * x.den)` exactly, and `Int.tdiv` is the
integer division that rounds toward zero. -/
def ratTruncDiv (x y : ℚ) : ℤ :=
  Int.tdiv (x.num * y.den) (y.num * x.den)

/-- C `fmod x y`: exact in IEEE arithmetic, `NaN` (here `none`) when `y = 0`;
otherwise the residual `x - y * trunc (x / y)`, written as a single
`Rat.divInt` over the common denominator so that it evaluates by kernel
reduction (the rational it denotes is exactly `x - y * trunc (x / y)`). -/
def fmodQ (x y : ℚ) : Option ℚ :=
  if y = 0 then none
  else some (Rat.divInt (x.num * y.den - y.num * x.den * ratTruncDiv x y)
    ((x.den : ℤ) * (y.den : ℤ)))

/-- Comparison `m <= t` where `m` may be NaN (`none`); any comparison with NaN
is false, as in IEEE arithmetic. -/
def fpLe (m : Option ℚ) (t : ℚ) : Bool :=
  match m with
  | none => false
  | some q => decide (q ≤ t)

/-- One row of the GPS sleep configuration table
(struct `SleepConfig` used by `gps_impl.cpp`). -/
structure SleepConfig where
  distanceThreshold : ℚ
  sleepInterval : ℕ
  gpsPowerEn : Bool
deriving Repr, DecidableEq

/-- The static table `sleepConfigs` of gps_impl.cpp lines 12-17. -/
def sleepConfigs : List SleepConfig :=
  [⟨10, 0, true⟩, ⟨50, 5 * 60, false⟩, ⟨100, 10 * 60, false⟩, ⟨200, 15 * 60, false⟩]

/-- Band selection of gps_impl.cpp lines 121-129: `threshholdDistance` starts
at `0`; the loop scans the table from the largest threshold down and takes the
first threshold that is `<= distance`; if none matches, `threshholdDistance`
keeps its initial value `0`. -/
def selectThreshold (distance : ℚ) : ℚ :=
  match sleepConfigs.reverse.find? (fun c => decide (c.distanceThreshold ≤ distance)) with
  | some c => c.distanceThreshold
  | none => 0

/-- The entry chosen by the second loop of gps_impl.cpp lines 130-151:
`modDistance = fmod(distance, threshholdDistance)` and the first table entry
with `modDistance <= distanceThreshold` is taken (none when `modDistance` is
NaN, in which case the loop body never runs). -/
def selectedEntry (distance : ℚ) : Option SleepConfig :=
  sleepConfigs.find? (fun c => fpLe (fmodQ distance (selectThreshold distance)) c.distanceThreshold)

/-- Level of the `GPS_EN_PIN`: `low` is the powered-on level (gps::init drives
it low to start the receiver, gps::disable drives it high). -/
inductive PinLevel where
  | low
  | high
deriving Repr, DecidableEq

/-- The state the GPS fix handler mutates: the global `gpsSleepInterval`
(initially 3600 s, gps_impl.cpp line 20), the `GPS_EN_PIN` level, and the
multiset of armed, not-yet-fired one-shot sleep timers (each recorded by the
interval it was armed with).  The C code never cancels or deletes a sleep
timer, so the list only grows until timers fire. -/
structure GpsState where
  gpsSleepInterval : ℕ
  gpsEnPin : PinLevel
  pendingSleepTimers : List ℕ
deriving Repr, DecidableEq

/-- Sleep-policy portion of `gps_event_handler` (gps_impl.cpp lines 120-151),
as a function of the computed distance-to-target: pick the band threshold,
reduce the distance modulo it, scan the table for the first entry whose
threshold bounds the residual; on a match store its interval in
`gpsSleepInterval` and either power the receiver on (`gpsPowerEn`) or power it
off and arm a one-shot sleep timer for the stored interval.  On no match
(possible: NaN residual) nothing is written. -/
def gps_event_handler_select (distance : ℚ) (s : GpsState) : GpsState :=
  match selectedEntry distance with
  | none => s
  | some c =>
    if c.gpsPowerEn then
      { s with gpsSleepInterval := c.sleepInterval, gpsEnPin := PinLevel.low }
    else
      { s with gpsSleepInterval := c.sleepInterval, gpsEnPin := PinLevel.high,
               pendingSleepTimers := s.pendingSleepTimers ++ [c.sleepInterval] }

/-- Callback of the one-shot sleep timer (gps_impl.cpp line 142): it writes
`GPS_EN_PIN` low unconditionally, re-evaluating nothing. -/
def gpsSleepTimerCallback (s : GpsState) : GpsState :=
  { s with gpsEnPin := PinLevel.low }

/-- struct `Location` of the shared context. -/
structure Location where
  latitude : ℚ
  longitude : ℚ
deriving Repr, DecidableEq

/-- gps::isValidGPSLocation (gps_impl.cpp lines 210-217): true iff latitude is
in [-90, 90] and longitude is in [-180, 180]; there is no further test. -/
def isValidGPSLocation (l : Location) : Bool :=
  decide (-90 ≤ l.latitude) && decide (l.latitude ≤ 90) &&
    decide (-180 ≤ l.longitude) && decide (l.longitude ≤ 180)

/-- State of the BLE session (bluetooth_impl.cpp): the two static flags
`serverEnable` and `clientConnected`, the NimBLE connected-peer count, an
advertising flag, and the context bits the idle-shutdown policy reads
(device-model-requires-GPS and the spawn location). -/
structure BleState where
  serverEnable : Bool
  clientConnected : Bool
  connectedCount : ℕ
  advertising : Bool
  isGPSModel : Bool
  spawnLocation : Location
deriving Repr, DecidableEq

/-- ServerCallbacks::onConnect (bluetooth_impl.cpp lines 21-25): sets the
`clientConnected` flag; the peer count is maintained by the NimBLE stack. -/
def bleOnConnect (s : BleState) : BleState :=
  { s with clientConnected := true, connectedCount := s.connectedCount + 1 }

/-- ServerCallbacks::onDisconnect (bluetooth_impl.cpp lines 27-31): restarts
advertising; nothing else — in particular `clientConnected` is not cleared. -/
def bleOnDisconnect (s : BleState) : BleState :=
  { s with connectedCount := s.connectedCount - 1, advertising := true }

/-- ble_server::deinit (bluetooth_impl.cpp lines 419-429): an early return if
the server is not enabled or `clientConnected` is set; otherwise the radio
stack and advertising are torn down and `serverEnable` is cleared. -/
def ble_server_deinit (s : BleState) : BleState :=
  if !s.serverEnable || s.clientConnected then s
  else { s with advertising := false, serverEnable := false }

/-- Callback of the one-shot idle-shutdown timer armed by ble_server::init
(bluetooth_impl.cpp lines 392-416): with a connected peer it does nothing;
with zero peers it skips teardown when the model requires GPS and the spawn
location is not valid, and otherwise calls ble_server::deinit. -/
def bleDeinitTimerFire (s : BleState) : BleState :=
  if s.connectedCount == 0 then
    if s.isGPSModel && !(isValidGPSLocation s.spawnLocation) then s
    else ble_server_deinit s
  else s

/-- Externally visible events of the BLE session lifecycle. -/
inductive BleEvent where
  | connect
  | disconnect
  | timerFire
deriving Repr, DecidableEq

/-- One step of the BLE session state machine. -/
def bleStep (s : BleState) : BleEvent → BleState
  | BleEvent.connect => bleOnConnect s
  | BleEvent.disconnect => bleOnDisconnect s
  | BleEvent.timerFire => bleDeinitTimerFire s

/-- A run of the BLE session state machine over a list of events. -/
def bleRun (s : BleState) : List BleEvent → BleState
  | [] => s
  | e :: es => bleRun (bleStep s e) es

/-- State right after ble_server::init (bluetooth_impl.cpp lines 281-417):
server enabled, advertising, no peer ever connected. -/
def bleInitState (gpsModel : Bool) (spawn : Location) : BleState :=
  { serverEnable := true, clientConnected := false, connectedCount := 0,
    advertising := true, isGPSModel := gpsModel, spawnLocation := spawn }

/-- Value of a hexadecimal digit character, if it is one. -/
def hexVal (c : Char) : Option ℕ :=
  if ('0' ≤ c && c ≤ '9') then some (c.toNat - Char.toNat '0')
  else if ('a' ≤ c && c ≤ 'f') then some (c.toNat - Char.toNat 'a' + 10)
  else if ('A' ≤ c && c ≤ 'F') then some (c.toNat - Char.toNat 'A' + 10)
  else none

/-- Accumulate leading hexadecimal digits; returns the value (over the given
accumulator) and the number of digit characters consumed. -/
def hexDigitsVal : List Char → ℕ → ℕ × ℕ
  | [], acc => (acc, 0)
  | c :: cs, acc =>
    match hexVal c with
    | some d =>
      let r := hexDigitsVal cs (acc * 16 + d)
      (r.1, r.2 + 1)
    | none => (acc, 0)

/-- Whitespace as recognized by C `strtol`/`strtof`. -/
def isSpaceChar (c : Char) : Bool :=
  c = ' ' || c = '\t' || c = '\n' || c = '\x0b' || c = '\x0c' || c = '\r'

/-- Digit-and-prefix part of `strtol(.., 16)`: an optional `0x`/`0X` prefix is
consumed only when a hexadecimal digit follows it; the result is the value and
the number of characters consumed. -/
def hexBody (l : List Char) : ℕ × ℕ :=
  match l with
  | '0' :: x :: c :: r =>
    if (x = 'x' || x = 'X') && (hexVal c).isSome then
      let v := hexDigitsVal (c :: r) 0
      (v.1, v.2 + 2)
    else hexDigitsVal l 0
  | _ => hexDigitsVal l 0

/-- Model of C `strtol(s, &endptr, 16)`: skip whitespace, optional sign,
optional `0x` prefix, hexadecimal digits.  Returns the value and the number of
characters consumed (`endptr - s`); if no digits are converted the consumed
count is `0` and the value `0`, as `strtol` specifies. -/
def strtol16 (s : List Char) : Int × ℕ :=
  let ws := (s.takeWhile isSpaceChar).length
  let r1 := s.drop ws
  match r1 with
  | '+' :: r =>
    let b := hexBody r
    if b.2 = 0 then (0, 0) else ((b.1 : Int), ws + 1 + b.2)
  | '-' :: r =>
    let b := hexBody r
    if b.2 = 0 then (0, 0) else (-(b.1 : Int), ws + 1 + b.2)
  | r =>
    let b := hexBody r
    if b.2 = 0 then (0, 0) else ((b.1 : Int), ws + b.2)

/-- struct `PointerColor` of the shared context (two 24-bit colors; the C
assignment stores a C `int`, modelled as `Int`). -/
structure PointerColor where
  southColor : Int
  spawnColor : Int
deriving Repr, DecidableEq

/-- The two copies of the pointer color the write handler can touch: the
persisted preference and the shared context's copy. -/
structure ColorState where
  persistedColor : PointerColor
  contextColor : PointerColor
deriving Repr, DecidableEq

/-- Helper for `splitTokens`: accumulate the current token (in reverse) while
scanning. -/
def splitTokensAux : List Char → List Char → List (List Char)
  | [], acc => [acc.reverse]
  | c :: cs, acc =>
    if c = ',' then acc.reverse :: splitTokensAux cs []
    else splitTokensAux cs (c :: acc)

/-- Modelled from the spec: `utils::split(value, ",")` of the repository's
utils module, which is not under src/; the spec describes the Color payload as
"one or two comma-separated hex integers", so the split is on the comma
character. -/
def splitTokens (value : String) : List (List Char) :=
  splitTokensAux value.toList []

/-- Color branch of CharacteristicCallbacks::onWrite (bluetooth_impl.cpp lines
108-141).  One token: `strtol` base 16; the south color is updated only when
`endptr == c_str() + 1`, i.e. exactly one character was consumed; the result
is persisted but the context copy is not updated.  Two or more tokens: each
field is updated unless its token converts no character (`endptr == c_str()`),
then the result is persisted and stored into the context. -/
def colorOnWrite (value : String) (s : ColorState) : ColorState :=
  let colors := splitTokens value
  let color0 := s.contextColor
  match colors with
  | [t] =>
    let r := strtol16 t
    let color := if r.2 = 1 then { color0 with southColor := r.1 } else color0
    { s with persistedColor := color }
  | t1 :: t2 :: _ =>
    let r1 := strtol16 t1
    let color1 := if r1.2 = 0 then color0 else { color0 with southColor := r1.1 }
    let r2 := strtol16 t2
    let color2 := if r2.2 = 0 then color1 else { color1 with spawnColor := r2.1 }
    { persistedColor := color2, contextColor := color2 }
  | [] => s

/-- Accumulate leading decimal digits; value over the accumulator and count of
characters consumed. -/
def decDigitsVal : List Char → ℕ → ℕ × ℕ
  | [], acc => (acc, 0)
  | c :: cs, acc =>
    if ('0' ≤ c && c ≤ '9') then
      let r := decDigitsVal cs (acc * 10 + (c.toNat - Char.toNat '0'))
      (r.1, r.2 + 1)
    else (acc, 0)

/-- Exponent part of a float literal: consumed only when at least one digit
follows `e`/`E` (and an optional sign); otherwise it contributes `0`. -/
def stofExponent (l : List Char) : ℤ :=
  match l with
  | c :: r =>
    if c = 'e' || c = 'E' then
      match r with
      | '+' :: r2 => let e := decDigitsVal r2 0; if e.2 = 0 then 0 else (e.1 : ℤ)
      | '-' :: r2 => let e := decDigitsVal r2 0; if e.2 = 0 then 0 else -(e.1 : ℤ)
      | r2 => let e := decDigitsVal r2 0; if e.2 = 0 then 0 else (e.1 : ℤ)
    else 0
  | [] => 0

/-- Binary exponent of a hexadecimal float literal: consumed only when at
least one decimal digit follows `p`/`P` (and an optional sign); otherwise it
contributes `0`. -/
def stofHexExponent (l : List Char) : ℤ :=
  match l with
  | c :: r =>
    if c = 'p' || c = 'P' then
      match r with
      | '+' :: r2 => let e := decDigitsVal r2 0; if e.2 = 0 then 0 else (e.1 : ℤ)
      | '-' :: r2 => let e := decDigitsVal r2 0; if e.2 = 0 then 0 else -(e.1 : ℤ)
      | r2 => let e := decDigitsVal r2 0; if e.2 = 0 then 0 else (e.1 : ℤ)
    else 0
  | [] => 0

/-- A value as `std::stof` can produce it: a finite value (kept as the exact
rational the literal denotes), an infinity from an `inf` literal, or NaN from
a `nan` literal.  The C `float` fields that receive these values can hold all
of them. -/
inductive FloatVal where
  | finite : ℚ → FloatVal
  | posInf
  | negInf
  | nanVal
deriving Repr, DecidableEq

/-- Classification of a finite conversion result with exact value
`sgn * num / den` (`den > 0`).  `strtof` sets `ERANGE` — making `std::stof`
throw `std::out_of_range`, which the write handler catches and treats as
failure — exactly when the conversion overflows or underflows: overflow when
`|value| >= 2^128 - 2^103`, the exact round-to-nearest-even overflow
threshold of `float` (ties round away from the finite range); underflow
(IEEE default condition: result tiny and inexact) when
`0 < |value| < 2^-126` and the value is not an exact subnormal, i.e. not an
integer multiple of `2^-149`.  Not modelled: the width-`2^-150` sliver just
below `2^-126` whose values round up to the smallest normal (tininess is
measured here before rounding), and the rounding of accepted values to
`float` (they are kept exact, and the sign of zero is not tracked). -/
def mkFiniteFloat (sgn : ℤ) (num den : ℕ) : Option FloatVal :=
  if (2 ^ 128 - 2 ^ 103) * den ≤ num then none
  else if 0 < num ∧ num * 2 ^ 126 < den ∧ ¬ (num * 2 ^ 149 % den = 0) then none
  else some (FloatVal.finite (Rat.divInt (sgn * Int.ofNat num) (Int.ofNat den)))

/-- Decimal branch of `strtof`: digits with an optional fractional part and an
optional decimal exponent; no digit at all is the `std::invalid_argument`
case. -/
def stofDec (sgn : ℤ) (l : List Char) : Option FloatVal :=
  let ip := decDigitsVal l 0
  let r3 := l.drop ip.2
  let fp : ℕ × ℕ × List Char :=
    match r3 with
    | '.' :: r => let f := decDigitsVal r 0; (f.1, f.2, r.drop f.2)
    | r => (0, 0, r)
  if ip.2 + fp.2.1 = 0 then none
  else
    let e : ℤ := stofExponent fp.2.2
    let mant : ℕ := ip.1 * 10 ^ fp.2.1 + fp.1
    if 0 ≤ e then mkFiniteFloat sgn (mant * 10 ^ e.toNat) (10 ^ fp.2.1)
    else mkFiniteFloat sgn mant (10 ^ fp.2.1 * 10 ^ (-e).toNat)

/-- Hexadecimal branch of `strtof`: hex digits with an optional hex fractional
part and an optional binary (`p`) exponent; the caller guarantees at least one
hex digit. -/
def stofHex (sgn : ℤ) (l : List Char) : Option FloatVal :=
  let ip := hexDigitsVal l 0
  let r3 := l.drop ip.2
  let fp : ℕ × ℕ × List Char :=
    match r3 with
    | '.' :: r => let f := hexDigitsVal r 0; (f.1, f.2, r.drop f.2)
    | r => (0, 0, r)
  let e : ℤ := stofHexExponent fp.2.2
  let mant : ℕ := ip.1 * 16 ^ fp.2.1 + fp.1
  if 0 ≤ e then mkFiniteFloat sgn (mant * 2 ^ e.toNat) (16 ^ fp.2.1)
  else mkFiniteFloat sgn mant (16 ^ fp.2.1 * 2 ^ (-e).toNat)

/-- Lowercase an ASCII letter, for the case-insensitive literal tests of
`strtof`. -/
def charLower (c : Char) : Char :=
  if ('A' ≤ c && c ≤ 'Z') then Char.ofNat (c.toNat + 32) else c

/-- Case-insensitive prefix test; the pattern is given in lowercase. -/
def startsWithCI : List Char → List Char → Bool
  | [], _ => true
  | _ :: _, [] => false
  | p :: ps, c :: cs => charLower c = p && startsWithCI ps cs

/-- Whether a `0x` prefix is followed by a hexadecimal mantissa digit
(possibly after the hexadecimal point); only then does `strtof` commit to the
hexadecimal form, otherwise it converts just the leading `0`. -/
def hexStartOk : List Char → Bool
  | '.' :: c :: _ => (hexVal c).isSome
  | c :: _ => (hexVal c).isSome
  | [] => false

/-- Model of C++ `std::stof` (C `strtof`, "C" locale): skip whitespace and an
optional sign, then one of the literal forms — case-insensitive `inf`(inity),
case-insensitive `nan`(...), a hexadecimal float (`0x`/`0X` prefix committed
only when a hex mantissa digit follows, hex digits with optional hex fraction
and optional `p` binary exponent), or a decimal float (digits with optional
fraction and optional `e` decimal exponent).  `none` covers both exceptions
the write handler catches: `std::invalid_argument` (no conversion) and
`std::out_of_range` (`ERANGE` from overflow or underflow, see
`mkFiniteFloat`). -/
def stof (s : String) : Option FloatVal :=
  let l := s.toList
  let r1 := l.drop ((l.takeWhile isSpaceChar).length)
  let sgn : ℤ × List Char :=
    match r1 with
    | '+' :: r => (1, r)
    | '-' :: r => (-1, r)
    | r => (1, r)
  if startsWithCI ['i', 'n', 'f'] sgn.2 then
    some (if sgn.1 = 1 then FloatVal.posInf else FloatVal.negInf)
  else if startsWithCI ['n', 'a', 'n'] sgn.2 then
    some FloatVal.nanVal
  else if startsWithCI ['0', 'x'] sgn.2 && hexStartOk (sgn.2.drop 2) then
    stofHex sgn.1 (sgn.2.drop 2)
  else
    stofDec sgn.1 sgn.2

/-- struct `Location` as the spawn write stores it: its C `float` fields
receive whatever `std::stof` returned, infinities and NaN included. -/
structure LocationF where
  latitude : FloatVal
  longitude : FloatVal
deriving Repr, DecidableEq

/-- The two copies of the spawn location the write handler can touch: the
persisted preference and the shared context's copy. -/
structure SpawnState where
  persistedSpawn : LocationF
  contextSpawn : LocationF
deriving Repr, DecidableEq

/-- Parse of the Spawn payload (bluetooth_impl.cpp lines 75-94): split at the
first comma (none — error); `std::stof` the right part as longitude first and
the left part as latitude; `parseSuccess` only when both convert. -/
def spawnParse (value : String) : Option LocationF :=
  match value.toList.findIdx? (fun c => c = ',') with
  | none => none
  | some idx =>
    match stof (String.mk (value.toList.drop (idx + 1))),
          stof (String.mk (value.toList.take idx)) with
    | some lon, some lat => some { latitude := lat, longitude := lon }
    | some _, none => none
    | none, _ => none

/-- Spawn branch of CharacteristicCallbacks::onWrite (bluetooth_impl.cpp lines
70-107): on `parseSuccess` the location is persisted and stored into the
context; on any parse failure the handler only logs, leaving both copies
unchanged. -/
def spawnOnWrite (value : String) (s : SpawnState) : SpawnState :=
  match spawnParse value with
  | some location => { persistedSpawn := location, contextSpawn := location }
  | none => s

/-- Event types carried on the shared event loop that reach the BLE
dispatcher. -/
inductive EventType where
  | azimuth
  | factoryReset
  | sensorCalibrate
deriving Repr, DecidableEq

/-- Modulus of `uint32_t` arithmetic. -/
def UINT32_MOD : ℕ := 2 ^ 32

/-- `millis()` as a `uint32_t` value of an unbounded time in milliseconds. -/
def millis (t : ℕ) : ℕ := t % UINT32_MOD

/-- `uint32_t` subtraction `a - b` with wraparound. -/
def sub32 (a b : ℕ) : ℕ := (a % UINT32_MOD + UINT32_MOD - b % UINT32_MOD) % UINT32_MOD

/-- ble_azimuth_dispatcher (bluetooth_impl.cpp lines 243-279) at one event:
first the rate gate — return when `millis() - last_update < 1000` — then
`last_update = millis()`, and only then the switch on the event type; an
azimuth event notifies the subscribed peers when the connected count is
positive; other event types fall through the switch with no case.  Returns the
new `last_update` and the number of notifications sent. -/
def ble_azimuth_dispatcher (connectedCount : ℕ) (t : ℕ) (e : EventType)
    (last_update : ℕ) : ℕ × ℕ :=
  if sub32 (millis t) last_update < 1000 then (last_update, 0)
  else
    match e with
    | EventType.azimuth => (millis t, if 0 < connectedCount then 1 else 0)
    | _ => (millis t, 0)

/-- Run of the dispatcher over a list of timestamped events; returns the final
`last_update` and the total number of notifications.  The static
`last_update` is zero-initialized at boot. -/
def runDispatcher (connectedCount : ℕ) : List (ℕ × EventType) → ℕ → ℕ × ℕ
  | [], lu => (lu, 0)
  | (t, e) :: rest, lu =>
    let r := ble_azimuth_dispatcher connectedCount t e lu
    let r2 := runDispatcher connectedCount rest r.1
    (r2.1, r.2 + r2.2)

/-! Helper lemmas about the sleep-policy selection. -/

/-- The reversed configuration table, as the downward scan sees it. -/
lemma sleepConfigs_reverse_eq :
    sleepConfigs.reverse =
      [⟨200, 900, false⟩, ⟨100, 600, false⟩, ⟨50, 300, false⟩, ⟨10, 0, true⟩] := by
  decide

/-- Closed form of the band-selection loop. -/
lemma selectThreshold_eq (d : ℚ) :
    selectThreshold d =
      if 200 ≤ d then 200 else if 100 ≤ d then 100
      else if 50 ≤ d then 50 else if 10 ≤ d then 10 else 0 := by
  unfold selectThreshold
  rw [sleepConfigs_reverse_eq]
  by_cases h200 : (200 : ℚ) ≤ d
  · rw [List.find?_cons_of_pos _ (by simpa using h200), if_pos h200]
  · rw [List.find?_cons_of_neg _ (by simpa using h200), if_neg h200]
    by_cases h100 : (100 : ℚ) ≤ d
    · rw [List.find?_cons_of_pos _ (by simpa using h100), if_pos h100]
    · rw [List.find?_cons_of_neg _ (by simpa using h100), if_neg h100]
      by_cases h50 : (50 : ℚ) ≤ d
      · rw [List.find?_cons_of_pos _ (by simpa using h50), if_pos h50]
      · rw [List.find?_cons_of_neg _ (by simpa using h50), if_neg h50]
        by_cases h10 : (10 : ℚ) ≤ d
        · rw [List.find?_cons_of_pos _ (by simpa using h10), if_pos h10]
        · rw [List.find?_cons_of_neg _ (by simpa using h10), if_neg h10]
          rfl

/-- Below every configured threshold the loop leaves its initializer `0`. -/
lemma selectThreshold_of_lt10 (d : ℚ) (h : d < 10) : selectThreshold d = 0 := by
  rw [selectThreshold_eq]
  rw [if_neg (by linarith), if_neg (by linarith), if_neg (by linarith),
    if_neg (by linarith)]

/-- At or above the smallest threshold, the band threshold is positive, at
most the largest threshold, and at most the distance itself. -/
lemma selectThreshold_bounds (d : ℚ) (h : 10 ≤ d) :
    0 < selectThreshold d ∧ selectThreshold d ≤ 200 ∧ selectThreshold d ≤ d := by
  rw [selectThreshold_eq]
  by_cases h200 : (200 : ℚ) ≤ d
  · rw [if_pos h200]; exact ⟨by norm_num, by norm_num, h200⟩
  · rw [if_neg h200]
    by_cases h100 : (100 : ℚ) ≤ d
    · rw [if_pos h100]; exact ⟨by norm_num, by norm_num, h100⟩
    · rw [if_neg h100]
      by_cases h50 : (50 : ℚ) ≤ d
      · rw [if_pos h50]; exact ⟨by norm_num, by norm_num, h50⟩
      · rw [if_neg h50, if_pos h]; exact ⟨by norm_num, by norm_num, h⟩

/-- Exactness and range of the residual: for a nonnegative dividend and a
positive modulus, `fmodQ` is defined and lands in `[0, y)`. -/
lemma fmodQ_bound (x y : ℚ) (hx : 0 ≤ x) (hy : 0 < y) :
    ∃ m : ℚ, fmodQ x y = some m ∧ 0 ≤ m ∧ m < y := by
  have hxd : (0 : ℤ) < (x.den : ℤ) := Int.natCast_pos.mpr x.pos
  have hyd : (0 : ℤ) < (y.den : ℤ) := Int.natCast_pos.mpr y.pos
  have hb : (0 : ℤ) < y.num * x.den := mul_pos (Rat.num_pos.mpr hy) hxd
  have ha : (0 : ℤ) ≤ x.num * y.den :=
    mul_nonneg (Rat.num_nonneg.mpr hx) hyd.le
  have hk : ratTruncDiv x y = (x.num * y.den) / (y.num * x.den) := by
    unfold ratTruncDiv
    exact Int.tdiv_eq_ediv ha hb.le
  have hdm := Int.ediv_add_emod (x.num * y.den) (y.num * x.den)
  have hr0 : (0 : ℤ) ≤ x.num * y.den % (y.num * x.den) :=
    Int.emod_nonneg _ (ne_of_gt hb)
  have hrb : x.num * y.den % (y.num * x.den) < y.num * x.den :=
    Int.emod_lt_of_pos _ hb
  have hc : x.num * y.den - y.num * x.den * ratTruncDiv x y =
      x.num * y.den % (y.num * x.den) := by
    rw [hk]
    omega
  have hd : (0 : ℤ) < (x.den : ℤ) * (y.den : ℤ) := mul_pos hxd hyd
  refine ⟨Rat.divInt (x.num * y.den - y.num * x.den * ratTruncDiv x y)
    ((x.den : ℤ) * (y.den : ℤ)), ?_, ?_, ?_⟩
  · unfold fmodQ
    rw [if_neg (ne_of_gt hy)]
  · rw [hc]
    exact Rat.divInt_nonneg hr0 hd.le
  · have hnole : ¬ (Rat.divInt y.num ((y.den : ℤ)) ≤
        Rat.divInt (x.num * y.den - y.num * x.den * ratTruncDiv x y)
          ((x.den : ℤ) * (y.den : ℤ))) := by
      rw [Rat.divInt_le_divInt hyd hd, hc]
      nlinarith
    have hlt := lt_of_not_le hnole
    rwa [Rat.num_divInt_den y] at hlt

/-- Below the smallest threshold the residual is NaN and no entry matches. -/
lemma selectedEntry_of_lt10 (d : ℚ) (h : d < 10) : selectedEntry d = none := by
  unfold selectedEntry
  rw [selectThreshold_of_lt10 d h]
  have hnan : fmodQ d 0 = none := by
    unfold fmodQ
    rw [if_pos rfl]
  rw [hnan]
  decide

/-- Any residual bounded by the largest threshold matches some table entry. -/
lemma find?_of_le200 (m : ℚ) (hm : m ≤ 200) :
    ∃ c : SleepConfig,
      sleepConfigs.find? (fun c => fpLe (some m) c.distanceThreshold) = some c ∧
        c ∈ sleepConfigs := by
  have hsome : (sleepConfigs.find? (fun c => fpLe (some m) c.distanceThreshold)).isSome := by
    rw [List.find?_isSome]
    refine ⟨⟨200, 900, false⟩, by decide, ?_⟩
    simpa [fpLe] using hm
  obtain ⟨c, hc⟩ := Option.isSome_iff_exists.mp hsome
  exact ⟨c, hc, List.mem_of_find?_eq_some hc⟩

/-- At or above the smallest threshold the selection always picks an entry of
the table. -/
lemma selectedEntry_of_ge10 (d : ℚ) (h : 10 ≤ d) :
    ∃ c : SleepConfig, selectedEntry d = some c ∧ c ∈ sleepConfigs := by
  obtain ⟨hpos, h200, _⟩ := selectThreshold_bounds d h
  obtain ⟨m, hm, _, hmlt⟩ := fmodQ_bound d (selectThreshold d) (by linarith) hpos
  unfold selectedEntry
  rw [hm]
  exact find?_of_le200 m (by linarith)

/-- Below the smallest threshold the handler is the identity. -/
lemma handler_of_lt10 (d : ℚ) (s : GpsState) (h : d < 10) :
    gps_event_handler_select d s = s := by
  unfold gps_event_handler_select
  rw [selectedEntry_of_lt10 d h]

/-- C1.  The claim: for every nonnegative distance below every configured
threshold (d < 10 km), the band-selection step uses the smallest configured
threshold (10 km) as the modulus.  This is false on the code: the loop's
accumulator `threshholdDistance` keeps its initializer `0`, so the modulus is
`0` and the residual `fmod(d, 0)` is NaN.  Counterexample at d = 5. -/
theorem C1_counterexample :
    (0 : ℚ) ≤ 5 ∧ (5 : ℚ) < 10 ∧ selectThreshold 5 = 0 ∧ selectThreshold 5 ≠ 10 := by
  decide

/-- C1 (amended).  For every nonnegative distance below every configured
threshold, the band-selection step leaves the band threshold at its
initializer `0`, and the residual computation `fmod(d, 0)` therefore yields
NaN rather than a residual modulo 10 km. -/
theorem C1_amended (d : ℚ) (h0 : 0 ≤ d) (h : d < 10) :
    selectThreshold d = 0 ∧ fmodQ d (selectThreshold d) = none := by
  have ht := selectThreshold_of_lt10 d h
  refine ⟨ht, ?_⟩
  rw [ht]
  unfold fmodQ
  rw [if_pos rfl]

/-- Witness for C1_amended at d = 5. -/
theorem C1_witness : selectThreshold 5 = 0 ∧ fmodQ 5 (selectThreshold 5) = none :=
  C1_amended 5 (by norm_num) (by norm_num)

/-- C2.  The claim: for every valid fix with distance in the smallest band
(0 ≤ d ≤ 10), the handler drives the GPS enable pin to its powered-on (low)
level.  False on the code for d < 10: no table entry matches the NaN residual,
so the handler writes nothing at all — at d = 5 a pin that was high stays
high. -/
theorem C2_counterexample :
    (0 : ℚ) ≤ 5 ∧ (5 : ℚ) ≤ 10 ∧
      (gps_event_handler_select 5 ⟨3600, PinLevel.high, []⟩).gpsEnPin = PinLevel.high := by
  decide

/-- C2 (amended).  For a distance with 0 ≤ d ≤ 10: below 10 km the handler
performs no update at all (no pin write, no timer armed, sleep interval left
unchanged); at exactly 10 km it selects the first entry, drives the pin to its
powered-on level, stores the interval 0 and arms no timer. -/
theorem C2_amended (d : ℚ) (s : GpsState) (h0 : 0 ≤ d) (h1 : d ≤ 10) :
    (d < 10 → gps_event_handler_select d s = s) ∧
    (d = 10 → gps_event_handler_select d s =
      { s with gpsSleepInterval := 0, gpsEnPin := PinLevel.low }) := by
  constructor
  · intro h
    exact handler_of_lt10 d s h
  · intro h
    subst h
    simp only [gps_event_handler_select,
      show selectedEntry 10 = some ⟨10, 0, true⟩ from by decide, if_true]

/-- Witness for C2_amended at d = 5 and d = 10. -/
theorem C2_witness :
    gps_event_handler_select 5 ⟨3600, PinLevel.high, []⟩ = ⟨3600, PinLevel.high, []⟩ ∧
    gps_event_handler_select 10 ⟨3600, PinLevel.high, [300]⟩ =
      ⟨0, PinLevel.low, [300]⟩ := by
  constructor
  · exact (C2_amended 5 ⟨3600, PinLevel.high, []⟩ (by norm_num) (by norm_num)).1 (by norm_num)
  · exact (C2_amended 10 ⟨3600, PinLevel.high, [300]⟩ (by norm_num) (by norm_num)).2 rfl

/-- C3.  The claim: after the selection completes, `gpsSleepInterval` is
always one of the configured intervals, never the 3600-second initial default.
False on the code: for d = 5 no entry matches (NaN residual), the assignment
never runs, and the variable keeps its 3600-second default. -/
theorem C3_counterexample :
    (0 : ℚ) ≤ 5 ∧
      (gps_event_handler_select 5 ⟨3600, PinLevel.low, []⟩).gpsSleepInterval = 3600 ∧
      3600 ∉ sleepConfigs.map (fun c => c.sleepInterval) := by
  decide

/-- C3 (amended).  For distances at or above the smallest threshold the
effective sleep interval after selection is one of the configured table
intervals; below the smallest threshold the selection leaves the interval
unchanged, so it can still hold the out-of-table 3600-second default. -/
theorem C3_amended (d : ℚ) (s : GpsState) (h0 : 0 ≤ d) :
    (10 ≤ d → (gps_event_handler_select d s).gpsSleepInterval ∈
      sleepConfigs.map (fun c => c.sleepInterval)) ∧
    (d < 10 → (gps_event_handler_select d s).gpsSleepInterval = s.gpsSleepInterval) := by
  constructor
  · intro h
    obtain ⟨c, hc, hmem⟩ := selectedEntry_of_ge10 d h
    simp only [gps_event_handler_select, hc]
    have hmm : c.sleepInterval ∈ sleepConfigs.map (fun c => c.sleepInterval) :=
      List.mem_map_of_mem _ hmem
    by_cases hp : c.gpsPowerEn
    · simp only [hp, if_true]
      exact hmm
    · simp only [hp, if_false, Bool.false_eq_true]
      exact hmm
  · intro h
    rw [handler_of_lt10 d s h]

/-- Witness for C3_amended at d = 70 and d = 5. -/
theorem C3_witness :
    (gps_event_handler_select 70 ⟨3600, PinLevel.low, []⟩).gpsSleepInterval ∈
      sleepConfigs.map (fun c => c.sleepInterval) ∧
    (gps_event_handler_select 5 ⟨3600, PinLevel.low, []⟩).gpsSleepInterval = 3600 := by
  constructor
  · exact (C3_amended 70 ⟨3600, PinLevel.low, []⟩ (by norm_num)).1 (by norm_num)
  · exact (C3_amended 5 ⟨3600, PinLevel.low, []⟩ (by norm_num)).2 (by norm_num)

/-- C7.  The claim: when the selected entry has power enabled, the handler
powers the receiver on and cancels any pending sleep timer.  The cancellation
half is false on the code: the handler never touches existing timers — at
d = 10 with an armed 300-second timer, the power-on path runs and the timer is
still pending afterwards. -/
theorem C7_counterexample :
    (gps_event_handler_select 10 ⟨3600, PinLevel.high, [300]⟩).gpsEnPin = PinLevel.low ∧
      (gps_event_handler_select 10 ⟨3600, PinLevel.high, [300]⟩).pendingSleepTimers = [300] ∧
      ([300] : List ℕ) ≠ [] := by
  decide

/-- C7 (amended).  When the selected entry has power enabled, the handler
powers the receiver on immediately but does not cancel pending sleep timers —
any previously armed timer remains pending (its later expiry also just powers
the receiver on); when power is disabled, it powers the receiver off and arms
a one-shot timer for the selected interval, and the timer callback powers the
receiver back on unconditionally, re-evaluating nothing. -/
theorem C7_amended (d : ℚ) (s : GpsState) (c : SleepConfig)
    (hc : selectedEntry d = some c) :
    (c.gpsPowerEn = true → gps_event_handler_select d s =
      { s with gpsSleepInterval := c.sleepInterval, gpsEnPin := PinLevel.low }) ∧
    (c.gpsPowerEn = false → gps_event_handler_select d s =
      { s with gpsSleepInterval := c.sleepInterval, gpsEnPin := PinLevel.high,
               pendingSleepTimers := s.pendingSleepTimers ++ [c.sleepInterval] }) ∧
    (∀ s2 : GpsState, gpsSleepTimerCallback s2 = { s2 with gpsEnPin := PinLevel.low }) := by
  refine ⟨?_, ?_, fun s2 => rfl⟩
  · intro hp
    simp only [gps_event_handler_select, hc, hp, if_true]
  · intro hp
    simp only [gps_event_handler_select, hc, hp, if_false, Bool.false_eq_true]

/-- Witness for C7_amended at d = 10 (power on, pending timer kept) and
d = 70 (power off, timer armed). -/
theorem C7_witness :
    gps_event_handler_select 10 ⟨3600, PinLevel.high, [300]⟩ = ⟨0, PinLevel.low, [300]⟩ ∧
    gps_event_handler_select 70 ⟨3600, PinLevel.low, []⟩ = ⟨300, PinLevel.high, [300]⟩ := by
  constructor
  · exact (C7_amended 10 ⟨3600, PinLevel.high, [300]⟩ ⟨10, 0, true⟩ (by decide)).1 rfl
  · exact (C7_amended 70 ⟨3600, PinLevel.low, []⟩ ⟨50, 300, false⟩ (by decide)).2.1 rfl

/-- C4.  The claim: when the idle-shutdown timer fires with zero connected
peers, teardown is skipped only for the GPS-model/unset-spawn exception, and
in every other reachable zero-peer state — including after a connect followed
by a disconnect — advertising and the radio stack are torn down.  False on the
code: `clientConnected` is set on connect and never cleared, and
ble_server::deinit early-returns when it is set, so after connect/disconnect
the timer fires without tearing anything down. -/
theorem C4_counterexample :
    (bleRun (bleInitState false ⟨0, 0⟩)
        [BleEvent.connect, BleEvent.disconnect, BleEvent.timerFire]).connectedCount = 0 ∧
    (bleInitState false ⟨0, 0⟩).isGPSModel = false ∧
    (bleRun (bleInitState false ⟨0, 0⟩)
        [BleEvent.connect, BleEvent.disconnect, BleEvent.timerFire]).serverEnable = true ∧
    (bleRun (bleInitState false ⟨0, 0⟩)
        [BleEvent.connect, BleEvent.disconnect, BleEvent.timerFire]).advertising = true := by
  decide

/-- C4 (amended).  When the idle-shutdown timer fires: with zero peers and the
GPS-model/unset-spawn exception, teardown is skipped; with zero peers, no
exception, the server enabled and no peer ever connected since init (the
`clientConnected` latch is never cleared on disconnect), advertising and the
radio stack are torn down; whenever the latch is set, the fire is a no-op. -/
theorem C4_amended (s : BleState) :
    (s.connectedCount = 0 → s.isGPSModel = true →
      isValidGPSLocation s.spawnLocation = false → bleDeinitTimerFire s = s) ∧
    (s.connectedCount = 0 → s.serverEnable = true → s.clientConnected = false →
      (s.isGPSModel = true → isValidGPSLocation s.spawnLocation = true) →
      bleDeinitTimerFire s = { s with advertising := false, serverEnable := false }) ∧
    (s.clientConnected = true → bleDeinitTimerFire s = s) := by
  refine ⟨?_, ?_, ?_⟩
  · intro h0 hg hv
    simp [bleDeinitTimerFire, h0, hg, hv]
  · intro h0 hs hcc hexc
    by_cases hg : s.isGPSModel
    · have hv := hexc hg
      simp [bleDeinitTimerFire, ble_server_deinit, h0, hg, hv, hs, hcc]
    · simp [bleDeinitTimerFire, ble_server_deinit, h0, hg, hs, hcc]
  · intro hcc
    by_cases h0 : s.connectedCount = 0
    · by_cases hex : s.isGPSModel && !(isValidGPSLocation s.spawnLocation)
      · simp [bleDeinitTimerFire, h0, hex]
      · simp [bleDeinitTimerFire, ble_server_deinit, h0, hex, hcc]
    · simp [bleDeinitTimerFire, h0]

/-- Witness for C4_amended: fresh non-GPS session tears down on timeout;
a GPS-model session with an out-of-range spawn location skips teardown. -/
theorem C4_witness :
    bleDeinitTimerFire (bleInitState false ⟨0, 0⟩) =
      { bleInitState false ⟨0, 0⟩ with advertising := false, serverEnable := false } ∧
    bleDeinitTimerFire (bleInitState true ⟨200, 0⟩) = bleInitState true ⟨200, 0⟩ := by
  constructor
  · exact (C4_amended (bleInitState false ⟨0, 0⟩)).2.1 rfl rfl rfl (by decide)
  · exact (C4_amended (bleInitState true ⟨200, 0⟩)).1 rfl rfl (by decide)

/-- C5.  Evaluation of the Color write branch at the claim's inputs: a write
of "ab" leaves both the persisted and the context color unchanged — the
single-token branch accepts a token only when `strtol` consumed exactly one
character (`endptr == c_str() + 1`), so the claimed south = 0xAB round trip
fails; a write of "ab,cd" works as claimed because the two-token branch uses
the standard `endptr == c_str()` failure test; a write of "a" (one character)
does update the persisted south color, showing the off-by-one check. -/
theorem C5_code_eval :
    colorOnWrite ("ab") ⟨⟨0x111111, 0x222222⟩, ⟨0x111111, 0x222222⟩⟩ =
      ⟨⟨0x111111, 0x222222⟩, ⟨0x111111, 0x222222⟩⟩ ∧
    colorOnWrite ("ab,cd") ⟨⟨0x111111, 0x222222⟩, ⟨0x111111, 0x222222⟩⟩ =
      ⟨⟨0xAB, 0xCD⟩, ⟨0xAB, 0xCD⟩⟩ ∧
    (colorOnWrite ("a") ⟨⟨0x111111, 0x222222⟩, ⟨0x111111, 0x222222⟩⟩).persistedColor =
      ⟨0xA, 0x222222⟩ := by
  decide

/-- C6.  The claim: `gps::isValidGPSLocation` excludes the all-zero location,
treating `{0, 0}` as unset.  False on the code: the function tests only the
coordinate ranges, and `{0, 0}` is in range, so it returns true. -/
theorem C6_counterexample : isValidGPSLocation ⟨0, 0⟩ = true := by
  decide

/-- C6 (amended).  `gps::isValidGPSLocation` returns true exactly
for latitude in [-90, 90] and longitude in [-180, 180]; the all-zero location
passes the test, so an all-zero spawn location counts as configured. -/
theorem C6_amended (l : Location) :
    isValidGPSLocation l = true ↔
      (-90 ≤ l.latitude ∧ l.latitude ≤ 90 ∧ -180 ≤ l.longitude ∧ l.longitude ≤ 180) := by
  simp [isValidGPSLocation, Bool.and_eq_true, decide_eq_true_iff, and_assoc]

/-- C8.  A spawn write whose two comma-separated tokens both parse as floats
updates the persisted store and the context as one unit, latitude from the
first token and longitude from the second; on any parse failure (no comma or
an unparseable token) both copies are left completely unchanged.  At the
claim's concrete inputs: "12.345,67.890" parses to latitude 12.345 and
longitude 67.890, and "not,a,number" fails to parse. -/
theorem C8_spawn_write (value : String) (s : SpawnState) :
    (spawnParse value = none → spawnOnWrite value s = s) ∧
    (∀ loc : LocationF, spawnParse value = some loc →
      spawnOnWrite value s = { persistedSpawn := loc, contextSpawn := loc }) ∧
    spawnParse ("12.345,67.890") =
      some { latitude := FloatVal.finite 12.345, longitude := FloatVal.finite 67.890 } ∧
    spawnParse ("not,a,number") = none := by
  refine ⟨?_, ?_, ?_, by decide⟩
  · intro h
    simp [spawnOnWrite, h]
  · intro loc h
    simp [spawnOnWrite, h]
  · have h1 : (12.345 : ℚ) = Rat.divInt 12345 1000 := by
      rw [Rat.divInt_eq_div]
      norm_num
    have h2 : (67.890 : ℚ) = Rat.divInt 67890 1000 := by
      rw [Rat.divInt_eq_div]
      norm_num
    rw [h1, h2]
    decide

/-- Witness for C8_spawn_write: the failing write leaves the prior location in
place, the successful write installs both coordinates in both copies. -/
theorem C8_witness :
    spawnOnWrite ("not,a,number")
        ⟨⟨FloatVal.finite 1, FloatVal.finite 2⟩, ⟨FloatVal.finite 1, FloatVal.finite 2⟩⟩ =
      ⟨⟨FloatVal.finite 1, FloatVal.finite 2⟩, ⟨FloatVal.finite 1, FloatVal.finite 2⟩⟩ ∧
    spawnOnWrite ("12.345,67.890")
        ⟨⟨FloatVal.finite 1, FloatVal.finite 2⟩, ⟨FloatVal.finite 1, FloatVal.finite 2⟩⟩ =
      ⟨⟨FloatVal.finite 12.345, FloatVal.finite 67.890⟩,
        ⟨FloatVal.finite 12.345, FloatVal.finite 67.890⟩⟩ := by
  constructor
  · exact (C8_spawn_write ("not,a,number")
      ⟨⟨FloatVal.finite 1, FloatVal.finite 2⟩, ⟨FloatVal.finite 1, FloatVal.finite 2⟩⟩).1
      (by decide)
  · exact (C8_spawn_write ("12.345,67.890")
      ⟨⟨FloatVal.finite 1, FloatVal.finite 2⟩, ⟨FloatVal.finite 1, FloatVal.finite 2⟩⟩).2.1
      ⟨FloatVal.finite 12.345, FloatVal.finite 67.890⟩
      (C8_spawn_write ("12.345,67.890")
        ⟨⟨FloatVal.finite 1, FloatVal.finite 2⟩, ⟨FloatVal.finite 1, FloatVal.finite 2⟩⟩).2.2.1

/-! Helper lemmas about the dispatcher's rate gate. -/

/-- Below the modulus, `uint32_t` subtraction of ordered values is plain
subtraction. -/
lemma sub32_eq (a b : ℕ) (hba : b ≤ a) (ha : a < UINT32_MOD) : sub32 a b = a - b := by
  have hM : UINT32_MOD = 4294967296 := by norm_num [UINT32_MOD]
  simp only [sub32, hM]
  omega

/-- An accepted event leaves the following 1000 ms closed to azimuth events:
dropped events also do not refresh the gate, so the whole window staysShut. -/
lemma runDispatcher_in_window (conn t : ℕ) (ht : t < UINT32_MOD) :
    ∀ ts : List ℕ, (∀ u ∈ ts, t ≤ u ∧ u - t < 1000 ∧ u < UINT32_MOD) →
      runDispatcher conn (ts.map (fun u => (u, EventType.azimuth))) (millis t) =
        (millis t, 0) := by
  intro ts
  induction ts with
  | nil => intro _; rfl
  | cons u us ih =>
    intro h
    have hu := h u (List.mem_cons_self u us)
    have hmu : millis u = u := Nat.mod_eq_of_lt hu.2.2
    have hmt : millis t = t := Nat.mod_eq_of_lt ht
    have hg : sub32 (millis u) (millis t) < 1000 := by
      rw [hmu, hmt, sub32_eq u t hu.1 hu.2.2]
      exact hu.2.1
    simp only [List.map_cons, runDispatcher, ble_azimuth_dispatcher, if_pos hg]
    have hrest := ih fun v hv => h v (List.mem_cons_of_mem u hv)
    simp [hrest]

/-- C9.  The claim: two azimuth events more than 1000 ms apart each produce an
outbound notification while a peer is connected.  False on the code: the
static `last_update` is zero-initialized, so an azimuth event in the first
1000 ms after boot is dropped by the rate gate — with events at 500 ms and
2000 ms (1500 ms apart) only one notification is produced. -/
theorem C9_counterexample :
    2000 - 500 = 1500 ∧ 1000 < 1500 ∧
    (runDispatcher 1 [(500, EventType.azimuth), (2000, EventType.azimuth)] 0).2 = 1 := by
  decide

/-- C9 (amended).  For two azimuth events at increasing times with a peer
connected: events less than 1000 ms apart produce at most one notification
(the second, inside the window, is dropped, not queued); events more than
1000 ms apart each produce a notification provided the first one itself
arrives with the gate open, i.e. at least 1000 ms after the gate's reference
time (the last accepted event, or boot where `last_update` starts at 0). -/
theorem C9_amended (L t1 t2 conn : ℕ) (hL : L ≤ t1) (h12 : t1 ≤ t2)
    (hw : t2 < UINT32_MOD) (hconn : 0 < conn) :
    (t2 - t1 < 1000 →
      (runDispatcher conn [(t1, EventType.azimuth), (t2, EventType.azimuth)] L).2 ≤ 1) ∧
    (1000 < t2 - t1 → 1000 ≤ t1 - L →
      (runDispatcher conn [(t1, EventType.azimuth), (t2, EventType.azimuth)] L).2 = 2) := by
  have ht1 : t1 < UINT32_MOD := lt_of_le_of_lt h12 hw
  have hm1 : millis t1 = t1 := Nat.mod_eq_of_lt ht1
  have hm2 : millis t2 = t2 := Nat.mod_eq_of_lt hw
  have hs1 : sub32 (millis t1) L = t1 - L := by
    rw [hm1]
    exact sub32_eq t1 L hL ht1
  have hs2 : sub32 (millis t2) (millis t1) = t2 - t1 := by
    rw [hm1, hm2]
    exact sub32_eq t2 t1 h12 hw
  constructor
  · intro hlt
    by_cases hg1 : sub32 (millis t1) L < 1000
    · by_cases hg2 : sub32 (millis t2) L < 1000
      · simp [runDispatcher, ble_azimuth_dispatcher, hg1, hg2]
      · simp [runDispatcher, ble_azimuth_dispatcher, hg1, hg2, hconn]
    · have hg2 : sub32 (millis t2) (millis t1) < 1000 := by
        rw [hs2]
        exact hlt
      simp [runDispatcher, ble_azimuth_dispatcher, hg1, hg2, hconn]
  · intro hgt hgate
    have hg1 : ¬ sub32 (millis t1) L < 1000 := by
      rw [hs1]
      omega
    have hg2 : ¬ sub32 (millis t2) (millis t1) < 1000 := by
      rw [hs2]
      omega
    simp [runDispatcher, ble_azimuth_dispatcher, hg1, hg2, hconn]

/-- Witness for C9_amended: events at 1500 ms and 3000 ms from boot, peer
connected, yield two notifications. -/
theorem C9_witness :
    (runDispatcher 1 [(1500, EventType.azimuth), (3000, EventType.azimuth)] 0).2 = 2 :=
  (C9_amended 0 1500 3000 1 (by norm_num) (by norm_num)
    (by norm_num [UINT32_MOD]) (by norm_num)).2 (by norm_num) (by norm_num)

/-- C10.  The rate gate is checked and `last_update` refreshed before the
event type is inspected, so the 1000 ms window is shared across all event
types: any accepted event — also a factory-reset or calibrate event, which
itself produces no notification — opens a 1000 ms window in which every
subsequent azimuth event produces no outbound notification (only the accepted
opening event notifies, and only if it is an azimuth event with a peer
connected). -/
theorem C10_shared_window (conn L t : ℕ) (e : EventType) (ts : List ℕ)
    (hgate : 1000 ≤ sub32 (millis t) L) (ht : t < UINT32_MOD)
    (hts : ∀ u ∈ ts, t ≤ u ∧ u - t < 1000 ∧ u < UINT32_MOD) :
    (runDispatcher conn ((t, e) :: ts.map (fun u => (u, EventType.azimuth))) L).2 =
      if e = EventType.azimuth ∧ 0 < conn then 1 else 0 := by
  have hg1 : ¬ sub32 (millis t) L < 1000 := not_lt.mpr hgate
  have hrest := runDispatcher_in_window conn t ht ts hts
  cases e with
  | azimuth =>
    by_cases hc : 0 < conn
    · simp [runDispatcher, ble_azimuth_dispatcher, hg1, hrest, hc]
    · simp [runDispatcher, ble_azimuth_dispatcher, hg1, hrest, hc]
  | factoryReset =>
    simp [runDispatcher, ble_azimuth_dispatcher, hg1, hrest]
  | sensorCalibrate =>
    simp [runDispatcher, ble_azimuth_dispatcher, hg1, hrest]

/-- Witness for C10_shared_window: an accepted factory-reset event at 1500 ms
silences the azimuth events at 1600 ms and 2400 ms; no notification at all is
produced. -/
theorem C10_witness :
    (runDispatcher 1 ((1500, EventType.factoryReset) ::
      ([1600, 2400] : List ℕ).map (fun u => (u, EventType.azimuth))) 0).2 = 0 := by
  have h := C10_shared_window 1 0 1500 EventType.factoryReset [1600, 2400]
    (by decide) (by decide) (by decide)
  simpa using h

end MCompass
